import Mathlib

/-!
Verification development for the shopify-flask-example backend.

The Python sources under `src/` are shallowly embedded here:

* pure helpers become Lean functions;
* database tables become lists of rows (a row is an association list of
  column name to SQL value), and the store as a whole is a record of
  tables threaded explicitly;
* fallible Python code (`KeyError`, `IndexError`, `AttributeError`,
  `ValueError`, uncaught request exceptions) is embedded with
  `Except PyErr` / `EStateM PyErr`;
* Python floats are modelled as exact rationals (`ℚ`); the only float
  arithmetic in the verified paths is decimal money arithmetic, where the
  exact-rational model agrees on every value the theorems touch;
* wall-clock readings (`pd.Timestamp.utcnow()`) and generated nonces
  (`uuid.uuid4().hex`) are passed in as explicit parameters.
-/

/-- Python exceptions that the embedded code can raise. -/
inductive PyErr where
  | keyError (key : String)
  | indexError
  | attributeError (attr : String)
  | typeError
  | valueError
  | timeoutError
  deriving DecidableEq, Repr

/-- Values that flow into the SQL layer: Python str / int / float / bool /
None, with floats modelled as exact rationals. -/
inductive SqlVal where
  | s (v : String)
  | i (v : Int)
  | q (v : ℚ)
  | b (v : Bool)
  | null
  deriving DecidableEq, Repr

/-- A database row / Python dict headed for the SQL layer: an association
list of column name to value, in insertion order. -/
abbrev Row := List (String × SqlVal)

/-- The generic tables written through `insert_model` / `update_model`,
keyed by table name. -/
abbrev Tables := List (String × List Row)

/-- Python `d[k]` on a dict: the first binding of `k`, or `None`. -/
def lookupRow : Row → String → Option SqlVal
  | [], _ => none
  | (k, v) :: rest, key => if k = key then some v else lookupRow rest key

/-- Python `d[k]` as a fallible access: `KeyError` when `k` is absent. -/
def pyDictGet (data : Row) (key : String) : Except PyErr SqlVal :=
  match lookupRow data key with
  | some v => .ok v
  | none => .error (.keyError key)

/-- Product of two rationals, phrased through `mkRat` so that it also
computes inside the kernel. -/
def qMul (a b : ℚ) : ℚ := mkRat (a.num * b.num) (a.den * b.den)

/-- Difference of two rationals, phrased through `mkRat`. -/
def qSub (a b : ℚ) : ℚ := mkRat (a.num * b.den - b.num * a.den) (a.den * b.den)

/-- Quotient of two rationals, phrased through `mkRat`. -/
def qDiv (a b : ℚ) : ℚ :=
  if b.num < 0 then mkRat (-(a.num * (b.den : Int))) (a.den * b.num.natAbs)
  else mkRat (a.num * (b.den : Int)) (a.den * b.num.natAbs)

/-- Negation of a rational, phrased through `mkRat`. -/
def qNeg (a : ℚ) : ℚ := mkRat (-a.num) a.den

/-- Floor of a rational, computed as floor division of numerator by
denominator (the denominator of a `ℚ` is positive). -/
def rfloor (x : ℚ) : ℤ := Int.fdiv x.num x.den

/-- Python `round(x)` (round-half-to-even) on an exact rational. -/
def roundHalfEven (x : ℚ) : ℤ :=
  let f := rfloor x
  let r := qSub x (mkRat f 1)
  if r < mkRat 1 2 then f
  else if mkRat 1 2 < r then f + 1
  else if f % 2 = 0 then f else f + 1

/-- Python `round(x, 2)` on the exact-rational model of a float. -/
def round2 (x : ℚ) : ℚ :=
  qDiv (mkRat (roundHalfEven (qMul x (mkRat 100 1))) 1) (mkRat 100 1)

/-- Digits of a Python numeric literal to a natural number; `none` when the
character list is empty or has a non-digit. -/
def digitsToNat (cs : List Char) : Option Nat :=
  if cs.isEmpty then none
  else
    cs.foldl
      (fun acc? c =>
        acc?.bind fun acc =>
          if c.isDigit then some (acc * 10 + (c.toNat - '0'.toNat)) else none)
      (some 0)

/-- Unsigned decimal literal (`"100"`, `"100.00"`) to an exact rational
(`ip.frac` is the rational `(ip·10^len + frac) / 10^len`). -/
def parseDecCore (cs : List Char) : Option ℚ :=
  match cs.span (fun c => c != '.') with
  | (intPart, []) => (digitsToNat intPart).map (fun n => mkRat n 1)
  | (intPart, _dot :: frac) =>
    (digitsToNat intPart).bind fun ip =>
      (digitsToNat frac).map fun fp =>
        mkRat (ip * 10 ^ frac.length + fp) (10 ^ frac.length)

/-- Python `float(s)` restricted to plain signed decimal literals, which is
the only shape the order payload money strings take; anything else raises
`ValueError` as in Python. -/
def pyFloat (s : String) : Except PyErr ℚ :=
  match s.data with
  | '-' :: rest =>
    match parseDecCore rest with
    | some q => .ok (qNeg q)
    | none => .error .valueError
  | cs =>
    match parseDecCore cs with
    | some q => .ok q
    | none => .error .valueError

/-- Python `int(s)` restricted to plain signed integer literals (Python
also strips whitespace and underscores; no such string reaches this
function in the verified paths). -/
def pyInt? (s : String) : Option Int :=
  match s.data with
  | '-' :: rest => (digitsToNat rest).map (fun n => -(n : Int))
  | cs => (digitsToNat cs).map (fun n => (n : Int))

/-- Embeds `maybe_number_str` from `shopify_munging.py`, as a value normalisation:
an integer-literal string becomes an SQL integer (the
`int(val) == float(val)` test of the source always succeeds once
`int(val)` parsed);
any other string is kept as a quoted string.  The source additionally
ISO-normalises timezone-aware datetime strings via `pd.Timestamp`; none of
the claims touch a string for which that branch changes the verdict, so
such strings are kept verbatim here. -/
def maybeNumberStr (v : String) : SqlVal :=
  match pyInt? v with
  | some n => .i n
  | none => .s v

/-- Embeds `build_sql_str` from `shopify_munging.py`, as the value actually stored
by the SQL layer: `"now()"` passes through, strings go through
`maybe_number_str`, floats are rounded to two decimals, ints, bools and
`None` are kept. -/
def sqlLit : SqlVal → SqlVal
  | .s v => if v = "now()" then .s "now()" else maybeNumberStr v
  | .i n => .i n
  | .q x => .q (round2 x)
  | .b b => .b b
  | .null => .null

/-- The row as persisted by `insert_model` / the UPDATE SET clause: every
value passes through `build_sql_str`. -/
def sqlRow (data : Row) : Row := data.map (fun kv => (kv.1, sqlLit kv.2))

/-- Rows of a named table (tables absent from the store read as empty). -/
def getTable : Tables → String → List Row
  | [], _ => []
  | (n, rows) :: rest, name => if n = name then rows else getTable rest name

/-- Replace (or create) a named table. -/
def setTable : Tables → String → List Row → Tables
  | [], name, rows => [(name, rows)]
  | (n, r) :: rest, name, rows =>
    if n = name then (n, rows) :: rest else (n, r) :: setTable rest name rows

/-- Embeds `insert_model`: append the `build_sql_str`-formatted row to the table. -/
def insertTable (ts : Tables) (tbl : String) (data : Row) : Tables :=
  setTable ts tbl (getTable ts tbl ++ [sqlRow data])

/-- Embeds `check_exists`: the first row of the table whose `idField` column holds
`v` (the SELECT of the source: `SELECT * FROM tbl WHERE id_field = id_value` plus
`iloc[0]`). -/
def checkExists (ts : Tables) (tbl idField : String) (v : SqlVal) : Option Row :=
  (getTable ts tbl).find? (fun r => decide (lookupRow r idField = some v))

/-- The changed-field dictionary of `update_model`:
`{k: data[k] for k, old_value in old_data.items() if data[k] != old_value}`.
Raises `KeyError` when the stored row has a column missing from `data`. -/
def diffData (data : Row) : Row → Except PyErr Row
  | [] => .ok []
  | (k, oldV) :: rest => do
    let dv ← pyDictGet data k
    let tail ← diffData data rest
    .ok (if dv = oldV then tail else (k, dv) :: tail)

/-- Apply an UPDATE SET clause to one row: each assigned column takes the
`build_sql_str`-formatted new value. -/
def applySet (r : Row) (changes : Row) : Row :=
  r.map (fun kv =>
    match lookupRow changes kv.1 with
    | some nv => (kv.1, sqlLit nv)
    | none => kv)

/-- Embeds `update_model`: compute the changed fields; no-op when none changed;
otherwise `UPDATE tbl SET changes WHERE idField = old_data[idField]`
(SQL UPDATE touches every row matching the WHERE clause). -/
def updateModel (ts : Tables) (tbl : String) (data oldData : Row)
    (idField : String) : Except PyErr Tables := do
  let changes ← diffData data oldData
  if changes = [] then
    .ok ts
  else do
    let idv ← pyDictGet oldData idField
    .ok (setTable ts tbl
      ((getTable ts tbl).map
        (fun r => if lookupRow r idField = some idv then applySet r changes else r)))

/-- Embeds `load_json_to_database` (without the unused `select` branch): with an id
field, upsert keyed on it — insert when `check_exists` finds nothing (also
when the id value is `None`, since `check_exists` then returns `None`),
update otherwise; without an id field, unconditionally insert. -/
def loadJsonToDatabase (ts : Tables) (tbl : String) (data : Row)
    (idField : Option String) : Except PyErr Tables :=
  match idField with
  | none => .ok (insertTable ts tbl data)
  | some f => do
    let v ← pyDictGet data f
    match (if v = .null then none else checkExists ts tbl f v) with
    | none => .ok (insertTable ts tbl data)
    | some oldData => updateModel ts tbl data oldData f

/-- Shop / presentment money pair from the webhook payload; amounts arrive
as decimal strings. -/
structure ShopMoney where
  amount : String
  currency_code : String
  deriving DecidableEq, Repr

/-- A `*_set` money object with presentment and shop components. -/
structure AmountSet where
  presentment_money : ShopMoney
  shop_money : ShopMoney
  deriving DecidableEq, Repr

/-- Customer default address from the order payload, restricted to the
fields the munging code names plus representative pass-through fields. -/
structure OrderAddress where
  id : Int
  default : Bool
  customer_id : Int
  company : Option String
  name : Option String
  address1 : String
  city : String
  country : String
  zip : String
  deriving DecidableEq, Repr

/-- Order customer from the payload, restricted to the fields the munging
code names plus representative pass-through fields. -/
structure Customer where
  id : Int
  email : String
  first_name : String
  last_name : String
  state : String
  orders_count : Int
  verified_email : Bool
  default_address : OrderAddress
  last_order_id : Option Int
  phone : Option String
  last_order_name : Option String
  deriving DecidableEq, Repr

/-- One entry of the `discount_codes` list of the order (`type` is the payload
key mirrored by the `ty` field). -/
structure DCode where
  code : String
  amount : String
  ty : String
  deriving DecidableEq, Repr

/-- One entry of the `discount_allocations` list of a line item. -/
structure DiscountAllocation where
  amount : String
  discount_application_index : Int
  amount_set : AmountSet
  deriving DecidableEq, Repr

/-- An order line item, restricted to the fields the munging code names
plus representative pass-through fields. -/
structure LineItem where
  id : Int
  name : String
  price : String
  price_set : AmountSet
  total_discount : String
  discount_allocations : List DiscountAllocation
  quantity : Int
  sku : String
  title : String
  variant_id : Option Int
  taxable : Bool
  gift_card : Bool
  requires_shipping : Bool
  deriving DecidableEq, Repr

/-- The decoded `orders/create` webhook payload, restricted to the fields
the munging code reads. -/
structure Order where
  id : Int
  order_number : Int
  customer : Customer
  location_id : Option Int
  user_id : Option Int
  note : Option String
  tags : String
  test : Bool
  financial_status : String
  cancel_reason : Option String
  cancelled_at : Option String
  closed_at : Option String
  taxes_included : Bool
  currency : String
  total_line_items_price_set : AmountSet
  total_price_set : AmountSet
  total_shipping_price_set : AmountSet
  total_tax_set : AmountSet
  discount_codes : List DCode
  line_items : List LineItem
  landing_site : Option String
  landing_site_ref : Option String
  referring_site : Option String
  source_identifier : Option String
  source_name : Option String
  source_url : Option String
  deriving DecidableEq, Repr

/-- Optional payload string to SQL value (`None` becomes SQL NULL). -/
def optS : Option String → SqlVal
  | none => .null
  | some v => .s v

/-- Optional payload integer to SQL value. -/
def optI : Option Int → SqlVal
  | none => .null
  | some v => .i v

/-- Embeds `munge_address`: copy the address, set `address_id` from `id` and
`is_default` from `default`, delete `id`, `default`, `customer_id`,
`company` and `name`. -/
def mungeAddress (a : OrderAddress) : Row :=
  [ ("address1", .s a.address1), ("city", .s a.city),
    ("country", .s a.country), ("zip", .s a.zip),
    ("address_id", .i a.id), ("is_default", .b a.default) ]

/-- Embeds `munge_customer`: copy the customer, set `customer_id`,
`shopify_store`, `default_address_id` and `total_spent = float()`, delete
the listed payload-only entries. -/
def mungeCustomer (c : Customer) (shopifyStoreAddress : String) : Row :=
  [ ("email", .s c.email), ("first_name", .s c.first_name),
    ("last_name", .s c.last_name), ("state", .s c.state),
    ("orders_count", .i c.orders_count), ("verified_email", .b c.verified_email),
    ("customer_id", .i c.id), ("shopify_store", .s shopifyStoreAddress),
    ("default_address_id", .i c.default_address.id), ("total_spent", .q 0) ]

/-- Embeds `munge_referral_data`: the six referral fields plus `order_id`. -/
def mungeReferralData (o : Order) : Row :=
  [ ("landing_site", optS o.landing_site),
    ("landing_site_ref", optS o.landing_site_ref),
    ("referring_site", optS o.referring_site),
    ("source_identifier", optS o.source_identifier),
    ("source_name", optS o.source_name),
    ("source_url", optS o.source_url),
    ("order_id", .i o.id) ]

/-- Embeds `munge_line_item`: copy the line item, set `order_id`, `line_item_id`,
`product_name`, flatten `price_set` via `access_amount_set` (expanded
inline), delete the listed entries, stamp `created_at` / `updated_at` with
the current time (passed in as `now`). -/
def mungeLineItem (li : LineItem) (orderId : Int) (now : String) : Row :=
  [ ("quantity", .i li.quantity), ("sku", .s li.sku), ("title", .s li.title),
    ("variant_id", optI li.variant_id), ("taxable", .b li.taxable),
    ("gift_card", .b li.gift_card), ("requires_shipping", .b li.requires_shipping),
    ("order_id", .i orderId), ("line_item_id", .i li.id),
    ("product_name", .s li.name),
    ("price_presentment", .s li.price_set.presentment_money.amount),
    ("price_presentment_currency", .s li.price_set.presentment_money.currency_code),
    ("price_shop", .s li.price_set.shop_money.amount),
    ("price_shop_currency", .s li.price_set.shop_money.currency_code),
    ("created_at", .s now), ("updated_at", .s now) ]

/-- Embeds `munge_line_item_discount`: allocation index, owning line item, and the
`amount_set` flattened via `access_amount_set` (expanded inline). -/
def mungeLineItemDiscount (da : DiscountAllocation) (lineItemId : Int) : Row :=
  [ ("discount_application_index", .i da.discount_application_index),
    ("line_item_id", .i lineItemId),
    ("discount_presentment", .s da.amount_set.presentment_money.amount),
    ("discount_presentment_currency", .s da.amount_set.presentment_money.currency_code),
    ("discount_shop", .s da.amount_set.shop_money.amount),
    ("discount_shop_currency", .s da.amount_set.shop_money.currency_code) ]

/-- Embeds `munge_order`: the explicit header fields, the copied keys, the four
`access_amount_set` expansions, and `created_at` / `updated_at` stamps. -/
def mungeOrder (o : Order) (businessId : Int) (now : String) : Row :=
  [ ("order_id", .i o.id), ("business_id", .i businessId),
    ("shop_order_number", .i o.order_number),
    ("customer_id", .i o.customer.id),
    ("pos_location_id", optI o.location_id), ("pos_user_id", optI o.user_id),
    ("note", optS o.note), ("tags", .s o.tags), ("test", .b o.test),
    ("financial_status", .s o.financial_status),
    ("cancel_reason", optS o.cancel_reason),
    ("cancelled_at", optS o.cancelled_at), ("closed_at", optS o.closed_at),
    ("taxes_included", .b o.taxes_included),
    ("total_line_items_presentment", .s o.total_line_items_price_set.presentment_money.amount),
    ("total_line_items_presentment_currency", .s o.total_line_items_price_set.presentment_money.currency_code),
    ("total_line_items_shop", .s o.total_line_items_price_set.shop_money.amount),
    ("total_line_items_shop_currency", .s o.total_line_items_price_set.shop_money.currency_code),
    ("total_price_presentment", .s o.total_price_set.presentment_money.amount),
    ("total_price_presentment_currency", .s o.total_price_set.presentment_money.currency_code),
    ("total_price_shop", .s o.total_price_set.shop_money.amount),
    ("total_price_shop_currency", .s o.total_price_set.shop_money.currency_code),
    ("total_shipping_presentment", .s o.total_shipping_price_set.presentment_money.amount),
    ("total_shipping_presentment_currency", .s o.total_shipping_price_set.presentment_money.currency_code),
    ("total_shipping_shop", .s o.total_shipping_price_set.shop_money.amount),
    ("total_shipping_shop_currency", .s o.total_shipping_price_set.shop_money.currency_code),
    ("total_tax_presentment", .s o.total_tax_set.presentment_money.amount),
    ("total_tax_presentment_currency", .s o.total_tax_set.presentment_money.currency_code),
    ("total_tax_shop", .s o.total_tax_set.shop_money.amount),
    ("total_tax_shop_currency", .s o.total_tax_set.shop_money.currency_code),
    ("created_at", .s now), ("updated_at", .s now) ]

/-- Embeds `munge_applied_discounts`: copy the discount-code entry, set
`order_id`, `discount_code` (from `code`) and `applied_discount_number`
(the enumeration rank), delete `code`. -/
def mungeAppliedDiscounts (d : DCode) (orderId : Int) (itemRank : Nat) : Row :=
  [ ("amount", .s d.amount), ("type", .s d.ty),
    ("order_id", .i orderId), ("discount_code", .s d.code),
    ("applied_discount_number", .i itemRank) ]

/-- The `for i, applied_discounts in enumerate(order["discount_codes"])`
loop of `load_data_to_db`: each entry is loaded with no id field, hence
unconditionally inserted. -/
def loadAppliedDiscounts (ts : Tables) : List DCode → Int → Nat → Except PyErr Tables
  | [], _, _ => .ok ts
  | d :: rest, orderId, i => do
    let t1 ← loadJsonToDatabase ts "shopify_appliedorderdiscounts"
      (mungeAppliedDiscounts d orderId i) none
    loadAppliedDiscounts t1 rest orderId (i + 1)

/-- The inner `for discount_data in line_item["discount_allocations"]` loop
of `load_data_to_db`: each allocation is loaded with no id field. -/
def loadLineItemDiscounts (ts : Tables) : List DiscountAllocation → Int → Except PyErr Tables
  | [], _ => .ok ts
  | da :: rest, liId => do
    let t1 ← loadJsonToDatabase ts "shopify_lineitemdiscounts"
      (mungeLineItemDiscount da liId) none
    loadLineItemDiscounts t1 rest liId

/-- The `for line_item in order["line_items"]` loop of `load_data_to_db`:
each line item is upserted on `line_item_id`, then its discount
allocations are inserted. -/
def loadLineItems (ts : Tables) : List LineItem → Int → String → Except PyErr Tables
  | [], _, _ => .ok ts
  | li :: rest, orderId, now => do
    let t1 ← loadJsonToDatabase ts "shopify_lineitem" (mungeLineItem li orderId now)
      (some "line_item_id")
    let t2 ← loadLineItemDiscounts t1 li.discount_allocations li.id
    loadLineItems t2 rest orderId now

/-- Embeds `load_data_to_db`: address, customer and order header upserted on their
upstream ids; applied discounts, line-item discount allocations and
referral data inserted with no id field; line items upserted on
`line_item_id`.  `now` stands for `pd.Timestamp.utcnow()`. -/
def loadDataTables (o : Order) (shopifyStoreAddress : String) (businessId : Int)
    (now : String) (ts : Tables) : Except PyErr Tables := do
  let t1 ← loadJsonToDatabase ts "shopify_address"
    (mungeAddress o.customer.default_address) (some "address_id")
  let t2 ← loadJsonToDatabase t1 "shopify_customer"
    (mungeCustomer o.customer shopifyStoreAddress) (some "customer_id")
  let t3 ← loadJsonToDatabase t2 "shopify_order"
    (mungeOrder o businessId now) (some "order_id")
  let t4 ← loadAppliedDiscounts t3 o.discount_codes o.id 0
  let t5 ← loadLineItems t4 o.line_items o.id now
  loadJsonToDatabase t5 "shopify_orderreferraldata" (mungeReferralData o) none

/-- Number of rows of a table whose column `f` holds `v`. -/
def countId (rows : List Row) (f : String) (v : SqlVal) : Nat :=
  (rows.filter (fun r => decide (lookupRow r f = some v))).length

theorem getTable_setTable_self (ts : Tables) (n : String) (rows : List Row) :
    getTable (setTable ts n rows) n = rows := by
  induction ts with
  | nil => simp [setTable, getTable]
  | cons hd tl ih =>
    obtain ⟨k, r⟩ := hd
    by_cases h : k = n <;> simp [setTable, getTable, h, ih]

theorem getTable_setTable_ne (ts : Tables) (n m : String) (rows : List Row)
    (h : m ≠ n) : getTable (setTable ts n rows) m = getTable ts m := by
  have hnm : n ≠ m := fun hh => h hh.symm
  induction ts with
  | nil => simp [setTable, getTable, hnm]
  | cons hd tl ih =>
    obtain ⟨k, r⟩ := hd
    by_cases hk : k = n
    · subst hk
      simp [setTable, getTable, hnm]
    · by_cases hm : k = m
      · subst hm
        simp [setTable, getTable, hk]
      · simp [setTable, getTable, hk, hm, ih]

theorem countId_nil (f : String) (v : SqlVal) : countId [] f v = 0 := rfl

theorem countId_cons (r : Row) (rows : List Row) (f : String) (v : SqlVal) :
    countId (r :: rows) f v =
      (if lookupRow r f = some v then 1 else 0) + countId rows f v := by
  simp only [countId, List.filter_cons]
  by_cases h : lookupRow r f = some v <;> simp [h, Nat.add_comm]

theorem countId_append (a b : List Row) (f : String) (v : SqlVal) :
    countId (a ++ b) f v = countId a f v + countId b f v := by
  simp [countId, List.filter_append]

theorem countId_eq_zero_iff (rows : List Row) (f : String) (v : SqlVal) :
    countId rows f v = 0 ↔ ∀ r ∈ rows, ¬ lookupRow r f = some v := by
  simp [countId, List.filter_eq_nil, List.length_eq_zero]

theorem countId_ne_zero_of_mem (rows : List Row) (r : Row) (f : String) (v : SqlVal)
    (hm : r ∈ rows) (hl : lookupRow r f = some v) : countId rows f v ≠ 0 := by
  intro h0
  exact ((countId_eq_zero_iff rows f v).mp h0) r hm hl

theorem countId_map_eq (g : Row → Row) (rows : List Row) (f : String) (v : SqlVal)
    (h : ∀ r ∈ rows, lookupRow (g r) f = lookupRow r f) :
    countId (rows.map g) f v = countId rows f v := by
  induction rows with
  | nil => rfl
  | cons r rest ih =>
    rw [List.map_cons, countId_cons, countId_cons, h r (by simp),
      ih (fun r2 h2 => h r2 (by simp [h2]))]

theorem lookupRow_sqlRow (d : Row) (k : String) :
    lookupRow (sqlRow d) k = (lookupRow d k).map sqlLit := by
  induction d with
  | nil => simp [sqlRow, lookupRow]
  | cons hd tl ih =>
    obtain ⟨k0, v0⟩ := hd
    by_cases h : k0 = k <;> simp [sqlRow, lookupRow, h] <;> simpa [sqlRow] using ih

theorem lookupRow_mem (l : Row) (k : String) (x : SqlVal)
    (h : lookupRow l k = some x) : (k, x) ∈ l := by
  induction l with
  | nil => simp [lookupRow] at h
  | cons hd tl ih =>
    obtain ⟨k0, v0⟩ := hd
    by_cases hk : k0 = k
    · subst hk
      simp [lookupRow] at h
      simp [h]
    · simp [lookupRow, hk] at h
      simp [ih h]

theorem diffData_mem (data : Row) : ∀ (old ch : Row),
    diffData data old = .ok ch → ∀ kv ∈ ch, lookupRow data kv.1 = some kv.2 := by
  intro old
  induction old with
  | nil =>
    intro ch h kv hm
    simp [diffData] at h
    subst h
    simp at hm
  | cons hd rest ih =>
    intro ch h kv hm
    obtain ⟨k, ov⟩ := hd
    cases hlk : lookupRow data k with
    | none => simp [diffData, pyDictGet, hlk, Bind.bind, Except.bind] at h
    | some dv =>
      cases hdd : diffData data rest with
      | error e => simp [diffData, pyDictGet, hlk, hdd, Bind.bind, Except.bind] at h
      | ok tail =>
        simp [diffData, pyDictGet, hlk, hdd, Bind.bind, Except.bind] at h
        by_cases hde : dv = ov
        · simp [hde] at h
          subst h
          exact ih tail hdd kv hm
        · simp [hde] at h
          subst h
          rcases List.mem_cons.mp hm with hcase | hcase
          · subst hcase
            exact hlk
          · exact ih tail hdd kv hcase

theorem lookupRow_applySet (r ch : Row) (k : String) :
    lookupRow (applySet r ch) k =
      (lookupRow r k).map (fun ov =>
        match lookupRow ch k with
        | some nv => sqlLit nv
        | none => ov) := by
  induction r with
  | nil => simp [applySet, lookupRow]
  | cons hd tl ih =>
    obtain ⟨k0, v0⟩ := hd
    by_cases h : k0 = k
    · subst h
      cases hc : lookupRow ch k0 <;> simp [applySet, lookupRow, hc]
    · cases hc : lookupRow ch k0 <;>
        simp [applySet, lookupRow, h, hc] <;> simpa [applySet] using ih

theorem exBind_ok {α β : Type} (x : Except PyErr α) (g : α → Except PyErr β) (b : β)
    (h : (x >>= g) = .ok b) : ∃ a, x = .ok a ∧ g a = .ok b := by
  cases x with
  | error e => simp [Bind.bind, Except.bind] at h
  | ok a => exact ⟨a, rfl, by simpa [Bind.bind, Except.bind] using h⟩

theorem checkExists_none_iff (ts : Tables) (tbl f : String) (v : SqlVal) :
    checkExists ts tbl f v = none ↔ countId (getTable ts tbl) f v = 0 := by
  simp [checkExists, List.find?_eq_none, countId_eq_zero_iff]

theorem checkExists_some (ts : Tables) (tbl f : String) (v : SqlVal) (old : Row)
    (h : checkExists ts tbl f v = some old) :
    lookupRow old f = some v ∧ old ∈ getTable ts tbl := by
  have h1 := List.find?_some h
  have h2 := List.mem_of_find?_eq_some h
  simp at h1
  exact ⟨h1, h2⟩

theorem loadJson_insert_eq (ts : Tables) (tbl : String) (data : Row) :
    loadJsonToDatabase ts tbl data none = .ok (insertTable ts tbl data) := rfl

theorem getTable_insertTable_self (ts : Tables) (tbl : String) (data : Row) :
    getTable (insertTable ts tbl data) tbl = getTable ts tbl ++ [sqlRow data] :=
  getTable_setTable_self ts tbl _

theorem getTable_insertTable_ne (ts : Tables) (tbl tbl2 : String) (data : Row)
    (h : tbl2 ≠ tbl) :
    getTable (insertTable ts tbl data) tbl2 = getTable ts tbl2 :=
  getTable_setTable_ne ts tbl tbl2 _ h

theorem loadJson_upsert_char (ts t' : Tables) (tbl f : String) (data : Row) (v : SqlVal)
    (hsucc : loadJsonToDatabase ts tbl data (some f) = .ok t')
    (hid : lookupRow data f = some v)
    (hv : v ≠ SqlVal.null)
    (hlit : sqlLit v = v) :
    (∀ w, countId (getTable t' tbl) f w =
      if w = v ∧ countId (getTable ts tbl) f v = 0
      then countId (getTable ts tbl) f w + 1
      else countId (getTable ts tbl) f w)
    ∧ (∀ tbl2, tbl2 ≠ tbl → getTable t' tbl2 = getTable ts tbl2) := by
  simp only [loadJsonToDatabase, pyDictGet, hid, Bind.bind, Except.bind, hv,
    if_false, reduceIte] at hsucc
  cases hce : checkExists ts tbl f v with
  | none =>
    rw [hce] at hsucc
    have ht' : t' = insertTable ts tbl data := by
      cases hsucc
      rfl
    have hzero := (checkExists_none_iff ts tbl f v).mp hce
    subst ht'
    have hsl : lookupRow (sqlRow data) f = some v := by
      rw [lookupRow_sqlRow, hid]
      simp [hlit]
    refine ⟨fun w => ?_, fun tbl2 hne => getTable_insertTable_ne ts tbl tbl2 data hne⟩
    rw [getTable_insertTable_self, countId_append]
    by_cases hw : w = v
    · subst hw
      simp [hzero, countId_cons, countId_nil, hsl]
    · have hne2 : ¬ lookupRow (sqlRow data) f = some w := by
        rw [hsl]
        intro hh
        exact hw (Option.some.inj hh).symm
      simp [hw, countId_cons, countId_nil, hne2]
  | some old =>
    rw [hce] at hsucc
    obtain ⟨hof, hom⟩ := checkExists_some ts tbl f v old hce
    have hpos : countId (getTable ts tbl) f v ≠ 0 :=
      countId_ne_zero_of_mem _ old f v hom hof
    cases hch : diffData data old with
    | error e => simp [updateModel, hch, Bind.bind, Except.bind] at hsucc
    | ok changes =>
      simp only [updateModel, hch, Bind.bind, Except.bind] at hsucc
      by_cases hemp : changes = []
      · rw [if_pos hemp] at hsucc
        have ht' : t' = ts := by
          cases hsucc
          rfl
        subst ht'
        refine ⟨fun w => ?_, fun tbl2 _ => rfl⟩
        rw [if_neg]
        rintro ⟨hwv, h0⟩
        exact hpos h0
      · rw [if_neg hemp] at hsucc
        simp only [pyDictGet, hof] at hsucc
        have ht' : t' = setTable ts tbl
            ((getTable ts tbl).map
              (fun r => if lookupRow r f = some v then applySet r changes else r)) := by
          cases hsucc
          rfl
        subst ht'
        refine ⟨fun w => ?_, fun tbl2 hne => getTable_setTable_ne ts tbl tbl2 _ hne⟩
        rw [getTable_setTable_self]
        rw [countId_map_eq]
        · rw [if_neg]
          rintro ⟨hwv, h0⟩
          exact hpos h0
        · intro r hr
          by_cases hrv : lookupRow r f = some v
          · rw [if_pos hrv, lookupRow_applySet, hrv]
            cases hcf : lookupRow changes f with
            | none => simp
            | some nv =>
              have hmemch := lookupRow_mem changes f nv hcf
              have hdm := diffData_mem data old changes hch (f, nv) hmemch
              have hnv : nv = v := by
                rw [hid] at hdm
                exact (Option.some.inj hdm).symm
              subst hnv
              simp [hlit]
          · rw [if_neg hrv]

/-- Total number of discount allocations across a list of line items. -/
def sumAllocs (items : List LineItem) : Nat :=
  (items.map (fun li => li.discount_allocations.length)).sum

theorem loadAppliedDiscounts_char : ∀ (codes : List DCode) (ts t' : Tables)
    (orderId : Int) (i : Nat),
    loadAppliedDiscounts ts codes orderId i = .ok t' →
    (getTable t' "shopify_appliedorderdiscounts").length =
      (getTable ts "shopify_appliedorderdiscounts").length + codes.length
    ∧ (∀ tbl2, tbl2 ≠ "shopify_appliedorderdiscounts" →
        getTable t' tbl2 = getTable ts tbl2) := by
  intro codes
  induction codes with
  | nil =>
    intro ts t' orderId i h
    simp [loadAppliedDiscounts] at h
    subst h
    exact ⟨rfl, fun _ _ => rfl⟩
  | cons d rest ih =>
    intro ts t' orderId i h
    simp only [loadAppliedDiscounts, loadJson_insert_eq, Bind.bind, Except.bind] at h
    obtain ⟨hlen, hframe⟩ := ih _ t' orderId (i + 1) h
    refine ⟨?_, fun tbl2 hne => ?_⟩
    · rw [hlen, getTable_insertTable_self]
      simp [Nat.add_assoc, Nat.add_comm 1]
    · rw [hframe tbl2 hne, getTable_insertTable_ne _ _ _ _ hne]

theorem loadLineItemDiscounts_char : ∀ (allocs : List DiscountAllocation)
    (ts t' : Tables) (liId : Int),
    loadLineItemDiscounts ts allocs liId = .ok t' →
    (getTable t' "shopify_lineitemdiscounts").length =
      (getTable ts "shopify_lineitemdiscounts").length + allocs.length
    ∧ (∀ tbl2, tbl2 ≠ "shopify_lineitemdiscounts" →
        getTable t' tbl2 = getTable ts tbl2) := by
  intro allocs
  induction allocs with
  | nil =>
    intro ts t' liId h
    simp [loadLineItemDiscounts] at h
    subst h
    exact ⟨rfl, fun _ _ => rfl⟩
  | cons da rest ih =>
    intro ts t' liId h
    simp only [loadLineItemDiscounts, loadJson_insert_eq, Bind.bind, Except.bind] at h
    obtain ⟨hlen, hframe⟩ := ih _ t' liId h
    refine ⟨?_, fun tbl2 hne => ?_⟩
    · rw [hlen, getTable_insertTable_self]
      simp [Nat.add_assoc, Nat.add_comm 1]
    · rw [hframe tbl2 hne, getTable_insertTable_ne _ _ _ _ hne]

theorem loadLineItems_char : ∀ (items : List LineItem) (ts t' : Tables)
    (orderId : Int) (now : String),
    loadLineItems ts items orderId now = .ok t' →
    (∀ v, countId (getTable t' "shopify_lineitem") "line_item_id" v =
      if v ∈ items.map (fun li => SqlVal.i li.id)
          ∧ countId (getTable ts "shopify_lineitem") "line_item_id" v = 0
      then 1 else countId (getTable ts "shopify_lineitem") "line_item_id" v)
    ∧ (getTable t' "shopify_lineitemdiscounts").length =
        (getTable ts "shopify_lineitemdiscounts").length + sumAllocs items
    ∧ (∀ tbl2, tbl2 ≠ "shopify_lineitem" → tbl2 ≠ "shopify_lineitemdiscounts" →
        getTable t' tbl2 = getTable ts tbl2) := by
  intro items
  induction items with
  | nil =>
    intro ts t' orderId now h
    simp [loadLineItems] at h
    subst h
    exact ⟨fun v => by simp, by simp [sumAllocs], fun _ _ _ => rfl⟩
  | cons li rest ih =>
    intro ts t' orderId now h
    simp only [loadLineItems] at h
    obtain ⟨t1, h1, h⟩ := exBind_ok _ _ _ h
    obtain ⟨t2, h2, h3⟩ := exBind_ok _ _ _ h
    have hid : lookupRow (mungeLineItem li orderId now) "line_item_id" =
        some (.i li.id) := by
      simp [mungeLineItem, lookupRow]
    obtain ⟨hc1, hf1⟩ := loadJson_upsert_char ts t1 _ _ _ _ h1 hid (by simp) rfl
    obtain ⟨hl2, hf2⟩ := loadLineItemDiscounts_char li.discount_allocations t1 t2 li.id h2
    obtain ⟨hc3, hl3, hf3⟩ := ih t2 t' orderId now h3
    have e2 : getTable t2 "shopify_lineitem" = getTable t1 "shopify_lineitem" :=
      hf2 _ (by decide)
    refine ⟨fun v => ?_, ?_, fun tbl2 hne1 hne2 => ?_⟩
    · rw [hc3 v, e2, hc1 v]
      by_cases hv1 : v = SqlVal.i li.id
      · subst hv1
        by_cases h0 :
            countId (getTable ts "shopify_lineitem") "line_item_id" (SqlVal.i li.id) = 0
        · simp [h0, List.map_cons]
        · simp [h0, List.map_cons]
      · simp only [hv1, false_and, if_false, List.map_cons, List.mem_cons]
        simp [hv1]
    · rw [hl3, hl2, hf1 _ (by decide)]
      have hs : sumAllocs (li :: rest) =
          li.discount_allocations.length + sumAllocs rest := by
        simp [sumAllocs]
      omega
    · rw [hf3 _ hne1 hne2, hf2 _ hne2, hf1 _ hne1]

theorem loadDataTables_char (o : Order) (addr : String) (bizId : Int) (now : String)
    (ts t' : Tables)
    (h : loadDataTables o addr bizId now ts = .ok t') :
    (countId (getTable t' "shopify_address") "address_id"
        (.i o.customer.default_address.id) =
      if countId (getTable ts "shopify_address") "address_id"
          (.i o.customer.default_address.id) = 0
      then 1
      else countId (getTable ts "shopify_address") "address_id"
        (.i o.customer.default_address.id))
    ∧ (countId (getTable t' "shopify_customer") "customer_id" (.i o.customer.id) =
      if countId (getTable ts "shopify_customer") "customer_id" (.i o.customer.id) = 0
      then 1
      else countId (getTable ts "shopify_customer") "customer_id" (.i o.customer.id))
    ∧ (countId (getTable t' "shopify_order") "order_id" (.i o.id) =
      if countId (getTable ts "shopify_order") "order_id" (.i o.id) = 0
      then 1 else countId (getTable ts "shopify_order") "order_id" (.i o.id))
    ∧ (∀ v, countId (getTable t' "shopify_lineitem") "line_item_id" v =
      if v ∈ o.line_items.map (fun li => SqlVal.i li.id)
          ∧ countId (getTable ts "shopify_lineitem") "line_item_id" v = 0
      then 1 else countId (getTable ts "shopify_lineitem") "line_item_id" v)
    ∧ (getTable t' "shopify_appliedorderdiscounts").length =
        (getTable ts "shopify_appliedorderdiscounts").length + o.discount_codes.length
    ∧ (getTable t' "shopify_lineitemdiscounts").length =
        (getTable ts "shopify_lineitemdiscounts").length + sumAllocs o.line_items
    ∧ (getTable t' "shopify_orderreferraldata").length =
        (getTable ts "shopify_orderreferraldata").length + 1 := by
  simp only [loadDataTables] at h
  obtain ⟨t1, h1, h⟩ := exBind_ok _ _ _ h
  obtain ⟨t2, h2, h⟩ := exBind_ok _ _ _ h
  obtain ⟨t3, h3, h⟩ := exBind_ok _ _ _ h
  obtain ⟨t4, h4, h⟩ := exBind_ok _ _ _ h
  obtain ⟨t5, h5, h6⟩ := exBind_ok _ _ _ h
  have hidA : lookupRow (mungeAddress o.customer.default_address) "address_id" =
      some (.i o.customer.default_address.id) := by
    simp [mungeAddress, lookupRow]
  have hidC : lookupRow (mungeCustomer o.customer addr) "customer_id" =
      some (.i o.customer.id) := by
    simp [mungeCustomer, lookupRow]
  have hidO : lookupRow (mungeOrder o bizId now) "order_id" = some (.i o.id) := by
    simp [mungeOrder, lookupRow]
  obtain ⟨hcA, hfA⟩ := loadJson_upsert_char ts t1 _ _ _ _ h1 hidA (by simp) rfl
  obtain ⟨hcC, hfC⟩ := loadJson_upsert_char t1 t2 _ _ _ _ h2 hidC (by simp) rfl
  obtain ⟨hcO, hfO⟩ := loadJson_upsert_char t2 t3 _ _ _ _ h3 hidO (by simp) rfl
  obtain ⟨hlAD, hfAD⟩ := loadAppliedDiscounts_char o.discount_codes t3 t4 o.id 0 h4
  obtain ⟨hcLI, hlLID, hfLI⟩ := loadLineItems_char o.line_items t4 t5 o.id now h5
  rw [loadJson_insert_eq] at h6
  have ht' : t' = insertTable t5 "shopify_orderreferraldata" (mungeReferralData o) := by
    cases h6
    rfl
  subst ht'
  refine ⟨?_, ?_, ?_, fun v => ?_, ?_, ?_, ?_⟩
  · rw [getTable_insertTable_ne _ _ _ _ (by decide),
      hfLI "shopify_address" (by decide) (by decide),
      hfAD "shopify_address" (by decide),
      hfO "shopify_address" (by decide),
      hfC "shopify_address" (by decide),
      hcA (SqlVal.i o.customer.default_address.id)]
    by_cases h0 : countId (getTable ts "shopify_address") "address_id"
        (SqlVal.i o.customer.default_address.id) = 0 <;> simp [h0]
  · rw [getTable_insertTable_ne _ _ _ _ (by decide),
      hfLI "shopify_customer" (by decide) (by decide),
      hfAD "shopify_customer" (by decide),
      hfO "shopify_customer" (by decide),
      hcC (SqlVal.i o.customer.id),
      hfA "shopify_customer" (by decide)]
    by_cases h0 : countId (getTable ts "shopify_customer") "customer_id"
        (SqlVal.i o.customer.id) = 0 <;> simp [h0]
  · rw [getTable_insertTable_ne _ _ _ _ (by decide),
      hfLI "shopify_order" (by decide) (by decide),
      hfAD "shopify_order" (by decide),
      hcO (SqlVal.i o.id),
      hfC "shopify_order" (by decide),
      hfA "shopify_order" (by decide)]
    by_cases h0 : countId (getTable ts "shopify_order") "order_id"
        (SqlVal.i o.id) = 0 <;> simp [h0]
  · rw [getTable_insertTable_ne _ _ _ _ (by decide),
      hcLI v,
      hfAD "shopify_lineitem" (by decide),
      hfO "shopify_lineitem" (by decide),
      hfC "shopify_lineitem" (by decide),
      hfA "shopify_lineitem" (by decide)]
  · rw [getTable_insertTable_ne _ _ _ _ (by decide),
      hfLI "shopify_appliedorderdiscounts" (by decide) (by decide),
      hlAD,
      hfO "shopify_appliedorderdiscounts" (by decide),
      hfC "shopify_appliedorderdiscounts" (by decide),
      hfA "shopify_appliedorderdiscounts" (by decide)]
  · rw [getTable_insertTable_ne _ _ _ _ (by decide),
      hlLID,
      hfAD "shopify_lineitemdiscounts" (by decide),
      hfO "shopify_lineitemdiscounts" (by decide),
      hfC "shopify_lineitemdiscounts" (by decide),
      hfA "shopify_lineitemdiscounts" (by decide)]
  · rw [getTable_insertTable_self]
    rw [List.length_append,
      hfLI "shopify_orderreferraldata" (by decide) (by decide),
      hfAD "shopify_orderreferraldata" (by decide),
      hfO "shopify_orderreferraldata" (by decide),
      hfC "shopify_orderreferraldata" (by decide),
      hfA "shopify_orderreferraldata" (by decide)]
    rfl

/-- A concrete order payload used to evaluate the reconciliation code. -/
def sampleAddress5 : OrderAddress :=
  { id := 11, default := true, customer_id := 21, company := none,
    name := some "A B", address1 := "1 Test St", city := "Testville",
    country := "AU", zip := "2000" }

/-- A concrete customer used to evaluate the reconciliation code. -/
def sampleCustomer5 : Customer :=
  { id := 21, email := "a@b.co", first_name := "A", last_name := "B",
    state := "enabled", orders_count := 1, verified_email := true,
    default_address := sampleAddress5, last_order_id := none, phone := none,
    last_order_name := none }

/-- A concrete order with one discount code and one line item carrying one
discount allocation; the shop total is `"100.00"` AUD. -/
def sampleOrder5 : Order :=
  { id := 1001, order_number := 42, customer := sampleCustomer5,
    location_id := none, user_id := none, note := none, tags := "",
    test := false, financial_status := "paid", cancel_reason := none,
    cancelled_at := none, closed_at := none, taxes_included := false,
    currency := "AUD",
    total_line_items_price_set :=
      { presentment_money := { amount := "100.00", currency_code := "AUD" },
        shop_money := { amount := "100.00", currency_code := "AUD" } },
    total_price_set :=
      { presentment_money := { amount := "90.00", currency_code := "AUD" },
        shop_money := { amount := "90.00", currency_code := "AUD" } },
    total_shipping_price_set :=
      { presentment_money := { amount := "0.00", currency_code := "AUD" },
        shop_money := { amount := "0.00", currency_code := "AUD" } },
    total_tax_set :=
      { presentment_money := { amount := "0.00", currency_code := "AUD" },
        shop_money := { amount := "0.00", currency_code := "AUD" } },
    discount_codes := [{ code := "SAVE10", amount := "10.00", ty := "percentage" }],
    line_items :=
      [ { id := 77, name := "Widget", price := "100.00",
          price_set :=
            { presentment_money := { amount := "100.00", currency_code := "AUD" },
              shop_money := { amount := "100.00", currency_code := "AUD" } },
          total_discount := "0.00",
          discount_allocations :=
            [ { amount := "10.00", discount_application_index := 0,
                amount_set :=
                  { presentment_money := { amount := "10.00", currency_code := "AUD" },
                    shop_money := { amount := "10.00", currency_code := "AUD" } } } ],
          quantity := 1, sku := "W1", title := "Widget", variant_id := none,
          taxable := true, gift_card := false, requires_shipping := true } ],
    landing_site := none, landing_site_ref := none, referring_site := none,
    source_identifier := none, source_name := none, source_url := none }

/-- First replay of the sample order against an empty store. -/
def c5run1 : Tables :=
  (loadDataTables sampleOrder5 "teststore.myshopify.com" 5 "A" []).toOption.getD []

/-- Second replay of the identical sample order. -/
def c5run2 : Tables :=
  (loadDataTables sampleOrder5 "teststore.myshopify.com" 5 "B" c5run1).toOption.getD []

/-- Claim C5, counterexample: replaying the identical order payload twice is
not an upsert for every persisted record — the referral-data, applied-order-
discount and line-item-discount rows are inserted unconditionally and are
duplicated on replay (two rows each after two loads of one payload), even
though the order and line-item tables do end up with exactly one row. -/
theorem C5_replay_duplicates_counterexample :
    ((loadDataTables sampleOrder5 "teststore.myshopify.com" 5 "A" []).bind
        (fun t1 => loadDataTables sampleOrder5 "teststore.myshopify.com" 5 "B" t1)).map
      (fun t2 =>
        ((getTable t2 "shopify_orderreferraldata").length,
         (getTable t2 "shopify_appliedorderdiscounts").length,
         (getTable t2 "shopify_lineitemdiscounts").length,
         (getTable t2 "shopify_order").length,
         (getTable t2 "shopify_lineitem").length))
    = .ok (2, 2, 2, 1, 1) := by rfl

/-- Claim C5 (amended): replaying the identical order payload twice yields
exactly one address, customer and order row and exactly one row per line
item id, because those four loads are upserts keyed on the upstream id; the
applied-discount, line-item-discount-allocation and referral-data loads are
keyed on nothing and insert unconditionally, so each replay appends one more
copy of those rows (two copies after two loads). -/
theorem C5_replay_amended (o : Order) (addr : String) (bizId : Int)
    (now1 now2 : String) (ts t1 t2 : Tables)
    (h1 : loadDataTables o addr bizId now1 ts = .ok t1)
    (h2 : loadDataTables o addr bizId now2 t1 = .ok t2)
    (ha : countId (getTable ts "shopify_address") "address_id"
      (.i o.customer.default_address.id) = 0)
    (hc : countId (getTable ts "shopify_customer") "customer_id"
      (.i o.customer.id) = 0)
    (ho : countId (getTable ts "shopify_order") "order_id" (.i o.id) = 0)
    (hli : ∀ li ∈ o.line_items,
      countId (getTable ts "shopify_lineitem") "line_item_id" (.i li.id) = 0) :
    countId (getTable t2 "shopify_address") "address_id"
        (.i o.customer.default_address.id) = 1
    ∧ countId (getTable t2 "shopify_customer") "customer_id" (.i o.customer.id) = 1
    ∧ countId (getTable t2 "shopify_order") "order_id" (.i o.id) = 1
    ∧ (∀ li ∈ o.line_items,
        countId (getTable t2 "shopify_lineitem") "line_item_id" (.i li.id) = 1)
    ∧ (getTable t2 "shopify_appliedorderdiscounts").length =
        (getTable ts "shopify_appliedorderdiscounts").length +
          2 * o.discount_codes.length
    ∧ (getTable t2 "shopify_lineitemdiscounts").length =
        (getTable ts "shopify_lineitemdiscounts").length + 2 * sumAllocs o.line_items
    ∧ (getTable t2 "shopify_orderreferraldata").length =
        (getTable ts "shopify_orderreferraldata").length + 2 := by
  obtain ⟨a1, c1, o1, li1, ad1, lid1, r1⟩ := loadDataTables_char o addr bizId now1 ts t1 h1
  obtain ⟨a2, c2, o2, li2, ad2, lid2, r2⟩ := loadDataTables_char o addr bizId now2 t1 t2 h2
  have a1' : countId (getTable t1 "shopify_address") "address_id"
      (.i o.customer.default_address.id) = 1 := by rw [a1, if_pos ha]
  have c1' : countId (getTable t1 "shopify_customer") "customer_id"
      (.i o.customer.id) = 1 := by rw [c1, if_pos hc]
  have o1' : countId (getTable t1 "shopify_order") "order_id" (.i o.id) = 1 := by
    rw [o1, if_pos ho]
  refine ⟨?_, ?_, ?_, fun li hm => ?_, by omega, by omega, by omega⟩
  · rw [a2, a1']
    norm_num
  · rw [c2, c1']
    norm_num
  · rw [o2, o1']
    norm_num
  · have hmem : SqlVal.i li.id ∈ o.line_items.map (fun li => SqlVal.i li.id) :=
      List.mem_map_of_mem _ hm
    have l1 : countId (getTable t1 "shopify_lineitem") "line_item_id"
        (.i li.id) = 1 := by
      rw [li1 (.i li.id), if_pos ⟨hmem, hli li hm⟩]
    rw [li2 (.i li.id), l1]
    norm_num

/-- Claim C5, witness: the amended theorem evaluated on the concrete sample
order replayed twice against an empty store. -/
theorem C5_replay_amended_witness :
    countId (getTable c5run2 "shopify_order") "order_id" (.i sampleOrder5.id) = 1
    ∧ (getTable c5run2 "shopify_orderreferraldata").length =
        (getTable ([] : Tables) "shopify_orderreferraldata").length + 2 := by
  have h1 : loadDataTables sampleOrder5 "teststore.myshopify.com" 5 "A" [] =
      .ok c5run1 := by rfl
  have h2 : loadDataTables sampleOrder5 "teststore.myshopify.com" 5 "B" c5run1 =
      .ok c5run2 := by rfl
  have main := C5_replay_amended sampleOrder5 "teststore.myshopify.com" 5 "A" "B"
    [] c5run1 c5run2 h1 h2 (by decide) (by decide) (by decide) (by decide)
  exact ⟨main.2.2.1, main.2.2.2.2.2.2⟩

/-- Modelled from the spec: one row of `shopify_pricerulediscount`, with
exactly the DiscountRecord attributes the data model of the spec lists —
`discount_code` (unique key), `business_id`, `endorser_id`, the discount
percentage (read as `prd_obj.discount` by the code), `start_time`,
`end_time`, nullable `price_rule_id` / `discount_id`, `converted`. The
table schema itself is owned by an external Django application, not by this
repository; in particular the record has no `discount_name` attribute. -/
structure PRDRow where
  discount_code : String
  business_id : Int
  endorser_id : Int
  discount : ℚ
  start_time : String
  end_time : String
  price_rule_id : Option Int
  discount_id : Option Int
  converted : Bool
  deriving DecidableEq, Repr

/-- Modelled from the spec: the columns of `businesses_business` the code
reads (`id`, `shopify_address`). -/
structure BizRow where
  id : Int
  shopify_address : String
  deriving DecidableEq, Repr

/-- Modelled from the spec: the columns of
`businesses_discountconfiguration` the code reads. -/
structure DiscountConfigRow where
  business_id : Int
  endorser_kickback_percent : ℚ
  deriving DecidableEq, Repr

/-- One row of `shopify_shopifystore`. -/
structure ShopRow where
  shop_address : String
  nonce : String
  ask_time : Int
  install_time : Option Int
  uninstall_time : Option Int
  access_token : Option String
  needs_rescope : Bool
  rac_id : Option Int
  deriving DecidableEq, Repr

/-- The state of a `PGStoreInterface` as handed to the order workflow: the
shop address and the stored shop row (`self.data`). -/
structure SDBI where
  shop : String
  data : ShopRow
  deriving DecidableEq, Repr

/-- The mutable store touched by the order-reconciliation workflow: the
generic tables, the typed tables read through the interpreter helpers, and
the outbound effects (gateway calls, Slack posts) recorded as traces. -/
structure St where
  tables : Tables
  prds : List PRDRow
  businesses : List BizRow
  discountConfigs : List DiscountConfigRow
  usageCharges : List (Int × String × ℚ)
  deletedPriceRules : List (Option Int)
  deletedDiscountCodes : List (Option Int × Option Int)
  slackMessages : List (String × String)
  deriving DecidableEq

/-- The order-workflow monad: Python exceptions over the mutable store
(state is preserved at the point an exception is raised, matching committed
SQL writes). -/
abbrev M (α : Type) := EStateM PyErr St α

/-- Lift a pure fallible computation into the workflow monad. -/
def liftE {α : Type} : Except PyErr α → M α
  | .ok a => pure a
  | .error e => throw e

/-- Embeds `find_discount`: `None` input returns `None`; otherwise
`SELECT * FROM shopify_pricerulediscount WHERE discount_code = ...` followed
by `.iloc[0]`, which raises `IndexError` when no row matches.  There is no
filter on `converted` or `price_rule_id`. -/
def findDiscountCore (prds : List PRDRow) (discountName : Option String) :
    Except PyErr (Option PRDRow) :=
  match discountName with
  | none => .ok none
  | some code =>
    match prds.find? (fun p => decide (p.discount_code = code)) with
    | some row => .ok (some row)
    | none => .error .indexError

/-- Embeds `find_discount` acting on the workflow state. -/
def findDiscount (discountName : Option String) : M (Option PRDRow) := do
  let st ← get
  liftE (findDiscountCore st.prds discountName)

/-- Embeds `get_business_by_shopify_address`: query plus `.iloc[0]`. -/
def getBusinessByShopifyAddress (shopifyAddress : String) : M BizRow := do
  let st ← get
  match st.businesses.find? (fun b => decide (b.shopify_address = shopifyAddress)) with
  | some b => pure b
  | none => throw .indexError

/-- Embeds `get_discount_config`: query plus `.iloc[0]`. -/
def getDiscountConfig (businessId : Int) : M DiscountConfigRow := do
  let st ← get
  match st.discountConfigs.find? (fun c => decide (c.business_id = businessId)) with
  | some c => pure c
  | none => throw .indexError

/-- Embeds `convert_prd`: `UPDATE shopify_pricerulediscount SET converted = TRUE
WHERE discount_code = ...`. -/
def convertPrd (discountName : String) : M Unit :=
  modify fun st =>
    { st with prds := st.prds.map fun p =>
        if p.discount_code = discountName then { p with converted := true } else p }

/-- Embeds `insert_model` acting on the workflow state. -/
def insertModelM (tbl : String) (data : Row) : M Unit :=
  modify fun st => { st with tables := insertTable st.tables tbl data }

/-- Embeds `load_data_to_db` acting on the workflow state (pure table computation
`loadDataTables` threaded through the store). -/
def loadDataToDb (o : Order) (shopifyStoreAddress : String) (businessId : Int)
    (now : String) : M Unit := do
  let st ← get
  match loadDataTables o shopifyStoreAddress businessId now st.tables with
  | .ok ts => set { st with tables := ts }
  | .error e => throw e

/-- Python dict insertion: overwrite the value of an existing key in place,
append a new key at the end (insertion order preserved). -/
def pyDictInsert {α : Type} : List (String × α) → String → α → List (String × α)
  | [], k, v => [(k, v)]
  | (k0, v0) :: rest, k, v =>
    if k0 = k then (k0, v) :: rest else (k0, v0) :: pyDictInsert rest k v

/-- Python dict lookup with `KeyError`. -/
def pyAssocGet {α : Type} (l : List (String × α)) (k : String) : Except PyErr α :=
  match l.find? (fun kv => decide (kv.1 = k)) with
  | some kv => .ok kv.2
  | none => .error (.keyError k)

/-- Embeds `create_kickback`: build the `{code: entry}` dict of the applied
discount codes of the order, read the entry of the matched code, compute
`kickback_units = float(total_line_items shop amount) × kickback_percent / 100`,
assemble the kickback dict (note the amount is stored under the key
`"kickback"`) and insert it into `endorser_kickback` — the float values are
rounded to two decimals by `build_sql_str` at that point.  Subscripting
`prd_obj` raises `TypeError` when the dict value is Python `None`. -/
def createKickback (o : Order) (discountConfig : DiscountConfigRow)
    (prdObj : Option PRDRow) (matchedDiscount : String) : M Row := do
  let applied := o.discount_codes.foldl (fun acc d => pyDictInsert acc d.code d) []
  let discountObj ← liftE (pyAssocGet applied matchedDiscount)
  let totalItemPurchase := o.total_line_items_price_set.shop_money
  let amt ← liftE (pyFloat totalItemPurchase.amount)
  let prd ← match prdObj with
    | some p => pure p
    | none => throw .typeError
  let kickbackUnits :=
    qDiv (qMul amt discountConfig.endorser_kickback_percent) (mkRat 100 1)
  let discountAmt ← liftE (pyFloat discountObj.amount)
  let kickback : Row :=
    [ ("created_at", .s "now()"), ("updated_at", .s "now()"),
      ("business_id", .i prd.business_id), ("endorser_id", .i prd.endorser_id),
      ("prd_id", .s prd.discount_code), ("order_id", .i o.id),
      ("kickback", .q kickbackUnits),
      ("kickback_currency", .s totalItemPurchase.currency_code),
      ("discount", .q (round2 discountAmt)),
      ("discount_currency", .s o.currency),
      ("paid_out_percent", .q 0), ("gooie_fee_percent", .q 30) ]
  insertModelM "endorser_kickback" kickback
  pure kickback

/-- Python `str()` of an SQL value, as interpolated into message strings. -/
def sqlValStr : SqlVal → String
  | .s v => v
  | .i n => toString n
  | .q x => toString x.num ++ "/" ++ toString x.den
  | .b b => toString b
  | .null => "None"

/-- A numeric SQL value as a rational (Python would raise `TypeError` on
arithmetic with a non-number). -/
def sqlValRat : SqlVal → Except PyErr ℚ
  | .q x => .ok x
  | .i n => .ok (mkRat n 1)
  | _ => .error .typeError

/-- Embeds `get_usd_amount`: the fixed one-entry currency-rate table (`KeyError`
for any other currency) times the 0.3% uplift. -/
def getUsdAmount (amount : ℚ) (shopCurrency : String) : Except PyErr ℚ :=
  match pyAssocGet [("AUD", mkRat 78 100)] shopCurrency with
  | .ok rate => .ok (qMul (qMul amount rate) (mkRat 1003 1000))
  | .error e => .error e

/-- Embeds `create_usage_charge`: reads `kickback["kickback_units"]` and
`kickback["kickback_currency"]`, converts the amount to USD, posts the
usage charge against the recurring charge through the Shopify client, and
notifies the `#new_refunds` Slack channel.  (`create_kickback` stores the
amount under the key `"kickback"`, so the first read raises `KeyError`.) -/
def createUsageCharge (racId : Int) (shop : String) (kickback : Row) : M Unit := do
  let amountV ← liftE (pyDictGet kickback "kickback_units")
  let currencyV ← liftE (pyDictGet kickback "kickback_currency")
  let amount ← liftE (sqlValRat amountV)
  let price ← liftE (getUsdAmount amount (sqlValStr currencyV))
  let orderIdV ← liftE (pyDictGet kickback "order_id")
  let prdIdV ← liftE (pyDictGet kickback "prd_id")
  let description := "Gooie charge on order: " ++ sqlValStr orderIdV ++
    " unique discount: " ++ sqlValStr prdIdV
  modify fun st =>
    { st with usageCharges := st.usageCharges ++ [(racId, description, price)] }
  modify fun st =>
    { st with slackMessages := st.slackMessages ++
        [("Created Charge of " ++ sqlValStr (.q price) ++ " for " ++ shop,
          "#new_refunds")] }

/-- Modelled from the spec: the DiscountRecord of the spec has no
`discount_name` attribute (its key is `discount_code`), so the pandas
attribute access `prd_obj.discount_name` in `handle_matched_discount`
raises `AttributeError`. -/
def prdDiscountName (_ : PRDRow) : M String :=
  throw (.attributeError "discount_name")

/-- Embeds `handle_matched_discount`: look up the configured discount
configuration, take the first key of the matches dict, create the kickback,
bill the usage charge when `sDBI.data.rac_id` is set, mark the record
converted via `convert_prd(prd_obj.discount_name)`, and delete the price
rule and discount code on the gateway. -/
def handleMatchedDiscount (o : Order) (business : BizRow) (sdbi : SDBI)
    (possibleDiscountMatches : List (String × Option PRDRow)) : M Unit := do
  let discountConfig ← getDiscountConfig business.id
  let matchedDiscount ← match possibleDiscountMatches.map (fun kv => kv.1) with
    | [] => throw .indexError
    | k :: _ => pure k
  let prdObj ← liftE (pyAssocGet possibleDiscountMatches matchedDiscount)
  let kickback ← createKickback o discountConfig prdObj matchedDiscount
  match sdbi.data.rac_id with
  | some racId => createUsageCharge racId sdbi.shop kickback
  | none => pure ()
  let prdName ← match prdObj with
    | some p => prdDiscountName p
    | none => throw (.attributeError "discount_name")
  convertPrd prdName
  let prd2 ← match prdObj with
    | some p => pure p
    | none => throw (.attributeError "price_rule_id")
  modify fun st =>
    { st with deletedPriceRules := st.deletedPriceRules ++ [prd2.price_rule_id] }
  modify fun st =>
    { st with deletedDiscountCodes :=
        st.deletedDiscountCodes ++ [(prd2.price_rule_id, prd2.discount_id)] }

/-- Embeds `process_order`: find the owning business, persist the order data, map
every applied discount code to the result of `find_discount` (matched or not —
the dict gets an entry per code), and call `handle_matched_discount`
whenever that dict is non-empty. -/
def processOrder (sdbi : SDBI) (o : Order) (now : String) : M Unit := do
  let business ← getBusinessByShopifyAddress sdbi.shop
  loadDataToDb o sdbi.shop business.id now
  let possibleDiscountMatches ← o.discount_codes.foldlM
    (fun acc d => do
      let r ← findDiscount (some d.code)
      pure (pyDictInsert acc d.code r)) []
  if possibleDiscountMatches.length > 0 then
    handleMatchedDiscount o business sdbi possibleDiscountMatches
  else
    pure ()

/-- The exception component of a workflow run. -/
def resErr {α : Type} : EStateM.Result PyErr St α → Option PyErr
  | .ok _ _ => none
  | .error e _ => some e

/-- The final store of a workflow run (state at the raise point for an
exceptional run, matching committed SQL writes). -/
def resState {α : Type} : EStateM.Result PyErr St α → St
  | .ok _ s => s
  | .error _ s => s

/-- A pending DiscountRecord for code `"SAVE10"` with ids already assigned
on the gateway. -/
def prdPending : PRDRow :=
  { discount_code := "SAVE10", business_id := 5, endorser_id := 9,
    discount := 10, start_time := "2021-01-01", end_time := "2021-12-31",
    price_rule_id := some 111, discount_id := some 222, converted := false }

/-- The business owning the sample shop. -/
def bizSample : BizRow := { id := 5, shopify_address := "teststore.myshopify.com" }

/-- The discount configuration of the sample business: 10% endorser
kickback. -/
def cfgSample : DiscountConfigRow :=
  { business_id := 5, endorser_kickback_percent := 10 }

/-- An installed sample shop row with no recurring billing reference. -/
def shopRowSample : ShopRow :=
  { shop_address := "teststore.myshopify.com", nonce := "n0", ask_time := 0,
    install_time := some 1, uninstall_time := none, access_token := some "tok",
    needs_rescope := false, rac_id := none }

/-- The store interface for the sample shop. -/
def sdbiSample : SDBI := { shop := "teststore.myshopify.com", data := shopRowSample }

/-- Initial store: empty tables, the pending SAVE10 record, the sample
business and its discount configuration. -/
def stSample : St :=
  { tables := [], prds := [prdPending], businesses := [bizSample],
    discountConfigs := [cfgSample], usageCharges := [], deletedPriceRules := [],
    deletedDiscountCodes := [], slackMessages := [] }

/-- Claim C1: processing an order whose single discount code `"SAVE10"`
matches a pending DiscountRecord (shop amount `"100.00"`, kickback_percent
10) does insert exactly one `endorser_kickback` row whose `kickback` is
`round(100.00 × 10/100, 2) = 10` with shop-currency `"AUD"` — but the
workflow then raises `AttributeError` on `prd_obj.discount_name` (the
DiscountRecord has no such attribute; its key is `discount_code`) before
`convert_prd` runs, so the `converted` flag of the matched record stays `false`,
contrary to the claim. -/
theorem C1_matched_order_eval :
    resErr ((processOrder sdbiSample sampleOrder5 "T").run stSample) =
      some (.attributeError "discount_name")
    ∧ getTable
        (resState ((processOrder sdbiSample sampleOrder5 "T").run stSample)).tables
        "endorser_kickback" =
      [ [ ("created_at", .s "now()"), ("updated_at", .s "now()"),
          ("business_id", .i 5), ("endorser_id", .i 9),
          ("prd_id", .s "SAVE10"), ("order_id", .i 1001),
          ("kickback", .q 10), ("kickback_currency", .s "AUD"),
          ("discount", .q 10), ("discount_currency", .s "AUD"),
          ("paid_out_percent", .q 0), ("gooie_fee_percent", .q 30) ] ]
    ∧ (resState ((processOrder sdbiSample sampleOrder5 "T").run stSample)).prds.map
        (fun p => p.converted) = [false] := by
  decide

/-- The SAVE10 DiscountRecord already redeemed (`converted = true`), i.e.
not pending. -/
def prdConverted : PRDRow := { prdPending with converted := true }

/-- The sample store where the only DiscountRecord is not pending. -/
def stConverted : St := { stSample with prds := [prdConverted] }

/-- Claim C2: an order whose only DiscountRecord for its discount code is not
pending (`converted` already `true`) is nevertheless treated as a match —
`find_discount` filters only on `discount_code`, with no
`converted`/`price_rule_id` condition — and one kickback row is inserted
where the claim requires zero. -/
theorem C2_nonpending_match_eval :
    (getTable
        (resState ((processOrder sdbiSample sampleOrder5 "T").run stConverted)).tables
        "endorser_kickback").length = 1
    ∧ resErr ((processOrder sdbiSample sampleOrder5 "T").run stConverted) =
        some (.attributeError "discount_name") := by
  decide

/-- The sample shop row with a recurring billing reference (`rac_id`). -/
def shopRowRac : ShopRow := { shopRowSample with rac_id := some 7 }

/-- The store interface for the sample shop with billing enabled. -/
def sdbiRac : SDBI := { shop := "teststore.myshopify.com", data := shopRowRac }

/-- Claim C6: for a matched order whose shop has a recurring billing
reference, `create_usage_charge` reads `kickback["kickback_units"]` while
`create_kickback` stored the amount under the key `"kickback"`, so the
workflow raises `KeyError("kickback_units")`: no usage charge is issued and
no channel notification is posted, contrary to the claim (the kickback row
itself was already inserted). -/
theorem C6_usage_charge_eval :
    resErr ((processOrder sdbiRac sampleOrder5 "T").run stSample) =
      some (.keyError "kickback_units")
    ∧ (resState ((processOrder sdbiRac sampleOrder5 "T").run stSample)).usageCharges = []
    ∧ (resState ((processOrder sdbiRac sampleOrder5 "T").run stSample)).slackMessages = []
    ∧ (getTable
        (resState ((processOrder sdbiRac sampleOrder5 "T").run stSample)).tables
        "endorser_kickback").length = 1 := by
  decide

/-- Embeds `StoreStatus` from `shopify_client.py`. -/
inductive StoreStatus where
  | NOT_KNOWN
  | INSTALL_REQUESTED
  | INSTALLED
  | UNINSTALLED
  deriving DecidableEq, Repr

/-- Embeds `get_store_status`: empty query result gives NOT_KNOWN; a row with
`install_time` null gives INSTALL_REQUESTED; else `uninstall_time` null
gives INSTALLED; else UNINSTALLED. -/
def getStoreStatus : Option ShopRow → StoreStatus
  | none => .NOT_KNOWN
  | some storeData =>
    if storeData.install_time = none then .INSTALL_REQUESTED
    else if storeData.uninstall_time = none then .INSTALLED
    else .UNINSTALLED

/-- Python `s.split(sep)` for a non-empty separator, scanning left to right
and cutting at each leftmost separator match; the explicit fuel argument
makes the recursion structural (`pySplit` supplies sufficient fuel, and the
fuel-exhausted value is never reached). -/
def pySplitF : Nat → List Char → List Char → List (List Char)
  | 0, _, _ => [[]]
  | fuel + 1, sep, xs =>
    if sep.isPrefixOf xs ∧ sep ≠ [] then
      [] :: pySplitF fuel sep (xs.drop sep.length)
    else
      match xs with
      | [] => [[]]
      | c :: t =>
        match pySplitF fuel sep t with
        | [] => [[c]]
        | y :: ys => (c :: y) :: ys

/-- Python `s.split(sep)` with the fuel filled in. -/
def pySplit (sep xs : List Char) : List (List Char) :=
  pySplitF (xs.length + 1) sep xs

/-- Whether `sep` occurs as a contiguous substring of the list. -/
def containsSub (sep : List Char) : List Char → Bool
  | [] => sep.isEmpty
  | c :: t => sep.isPrefixOf (c :: t) || containsSub sep t

/-- Embeds `strip_shop_address` on character lists: split on `"https://"`; when
the separator is absent (one piece) return the input, otherwise return the
second piece. -/
def stripL (xs : List Char) : List Char :=
  let splitAddress := pySplit ("https://".data) xs
  if splitAddress.length = 1 then xs else splitAddress.getD 1 []

/-- Embeds `strip_shop_address` (after the `self.shop` defaulting). -/
def stripShopAddress (shopAddress : String) : String :=
  String.mk (stripL shopAddress.data)

/-- The `shopify_shopifystore` table. -/
abbrev ShopDb := List ShopRow

/-- Embeds `get_store_info`: SELECT from `shopify_shopifystore` the rows
whose `shop_address` equals the stripped shop address, first row. -/
def getStoreInfo (db : ShopDb) (shop : String) : Option ShopRow :=
  db.find? (fun r => decide (r.shop_address = stripShopAddress shop))

/-- SQL `UPDATE shopify_shopifystore SET ... WHERE shop_address = a`. -/
def shopUpdate (db : ShopDb) (a : String) (g : ShopRow → ShopRow) : ShopDb :=
  db.map (fun r => if r.shop_address = a then g r else r)

/-- Embeds `request_install`: INSERT a fresh row with the generated nonce and
ask time (both passed in); the remaining columns default to NULL. -/
def requestInstall (db : ShopDb) (shop nonce : String) (askTime : Int) : ShopDb :=
  db ++ [{ shop_address := stripShopAddress shop, nonce := nonce,
           ask_time := askTime, install_time := none, uninstall_time := none,
           access_token := none, needs_rescope := false, rac_id := none }]

/-- Embeds `request_reinstall`: null out uninstall_time / install_time /
access_token / rac_id, set the new ask_time and nonce, clear
needs_rescope. -/
def requestReinstall (db : ShopDb) (shop nonce : String) (askTime : Int) : ShopDb :=
  shopUpdate db (stripShopAddress shop) (fun r =>
    { r with uninstall_time := none, install_time := none, ask_time := askTime,
             nonce := nonce, access_token := none, needs_rescope := false,
             rac_id := none })

/-- Embeds `confirm_installation` (the DB write alone; the route checks live in
`appInstalled`): set install_time and access_token. -/
def confirmInstallation (db : ShopDb) (shop : String) (accessToken : String)
    (installTime : Int) : ShopDb :=
  shopUpdate db (stripShopAddress shop) (fun r =>
    { r with install_time := some installTime, access_token := some accessToken })

/-- Embeds `update_rac_id`: set the recurring billing reference. -/
def updateRacId (db : ShopDb) (shop : String) (racId : Int) : ShopDb :=
  shopUpdate db (stripShopAddress shop) (fun r => { r with rac_id := some racId })

/-- Embeds `uninstall`: set uninstall_time, clear access_token and rac_id. -/
def uninstall (db : ShopDb) (shop : String) (uninstallTime : Int) : ShopDb :=
  shopUpdate db (stripShopAddress shop) (fun r =>
    { r with uninstall_time := some uninstallTime, access_token := none,
             rac_id := none })

/-- Python `str()` of an optional string: `None` interpolates as the text
`"None"` (as interpolated by the f-string in `confirm_installation`). -/
def pyStr : Option String → String
  | none => "None"
  | some s => s

/-- An HTTP response of the server routes. -/
inductive HttpResponse where
  | page (body : String) (status : Nat)
  | redirectTo (url : String) (status : Nat)
  deriving DecidableEq, Repr

/-- The 400 body of `app_installed` when the shop has not requested install
(the contraction in the source text is spelled out here, avoiding the
apostrophe). -/
def notRequestedBody (shop : String) : String :=
  "\n            You have navigated to the installation confirmation stage,\n             but this shop: "
    ++ shop ++ "\n             has not recently requested install\n        "

/-- The 400 body of `app_installed` on a nonce mismatch. -/
def invalidStateBody : String :=
  "Invalid `state` received, cannot confirm installation"

/-- Embeds `app_installed`: 400 unless the derived status is INSTALL_REQUESTED;
400 on state/nonce mismatch; otherwise authenticate (the token obtained
from the gateway is a parameter), run `confirm_installation`, set the
billing reference when the recurring-charge call returned one, and
redirect (302).  The Slack post and webhook registrations are outbound
effects not reflected in the shop table. -/
def appInstalled (db : ShopDb) (shop : String) (state : Option String)
    (authToken : Option String) (racResponse : Option Int) (now : Int) :
    HttpResponse × ShopDb :=
  let row? := getStoreInfo db shop
  if getStoreStatus row? ≠ StoreStatus.INSTALL_REQUESTED then
    (.page (notRequestedBody shop) 400, db)
  else
    match row? with
    | none => (.page (notRequestedBody shop) 400, db)
    | some r =>
      if state ≠ some r.nonce then
        (.page invalidStateBody 400, db)
      else
        let db1 := confirmInstallation db shop (pyStr authToken) now
        let db2 :=
          match racResponse with
          | some racId => updateRacId db1 shop racId
          | none => db1
        (.redirectTo ("https://" ++ shop ++ "/admin/apps/" ++ "APP_NAME") 302, db2)

theorem isPrefixOf_length_le : ∀ (a b : List Char), a.isPrefixOf b = true →
    a.length ≤ b.length := by
  intro a
  induction a with
  | nil => simp
  | cons c t ih =>
    intro b h
    cases b with
    | nil => simp [List.isPrefixOf] at h
    | cons c2 t2 =>
      simp only [List.isPrefixOf, Bool.and_eq_true, beq_iff_eq] at h
      have := ih t2 h.2
      simp only [List.length_cons]
      omega

theorem isPrefixOf_append_ext : ∀ (a b c : List Char), a.isPrefixOf b = true →
    a.isPrefixOf (b ++ c) = true := by
  intro a
  induction a with
  | nil => simp [List.isPrefixOf]
  | cons x xs ih =>
    intro b c h
    cases b with
    | nil => simp [List.isPrefixOf] at h
    | cons y ys =>
      simp only [List.isPrefixOf, Bool.and_eq_true, beq_iff_eq] at h
      simp only [List.cons_append, List.isPrefixOf, Bool.and_eq_true, beq_iff_eq]
      exact ⟨h.1, ih ys c h.2⟩

theorem isPrefixOf_nil_right : ∀ (a : List Char), a.isPrefixOf [] = true → a = [] := by
  intro a h
  cases a with
  | nil => rfl
  | cons x xs => simp [List.isPrefixOf] at h

theorem pySplitF_ne_nil (fuel : Nat) (sep xs : List Char) :
    pySplitF fuel sep xs ≠ [] := by
  cases fuel with
  | zero => simp [pySplitF]
  | succ f =>
    simp only [pySplitF]
    split
    · simp
    · split
      · simp
      · split <;> simp

theorem pySplitF_head_app : ∀ (fuel : Nat) (sep xs : List Char), xs.length < fuel →
    ∃ rest, (pySplitF fuel sep xs).headD [] ++ rest = xs := by
  intro fuel
  induction fuel with
  | zero =>
    intro sep xs h
    omega
  | succ f ih =>
    intro sep xs h
    by_cases hp : sep.isPrefixOf xs ∧ sep ≠ []
    · simp only [pySplitF, if_pos hp]
      exact ⟨xs, by simp⟩
    · cases xs with
      | nil =>
        simp only [pySplitF, if_neg hp]
        exact ⟨[], by simp⟩
      | cons c t =>
        simp only [pySplitF, if_neg hp]
        cases hres : pySplitF f sep t with
        | nil => exact ⟨t, by simp [hres]⟩
        | cons y ys =>
          obtain ⟨rest, hrest⟩ := ih sep t (by simp only [List.length_cons] at h; omega)
          rw [hres] at hrest
          simp only [List.headD_cons] at hrest
          exact ⟨rest, by simp [hres, hrest]⟩

theorem pySplitF_no_sep : ∀ (fuel : Nat) (sep xs : List Char), xs.length < fuel →
    containsSub sep xs = false → pySplitF fuel sep xs = [xs] := by
  intro fuel
  induction fuel with
  | zero =>
    intro sep xs h
    omega
  | succ f ih =>
    intro sep xs h hc
    have hguard : ¬ (sep.isPrefixOf xs ∧ sep ≠ []) := by
      rintro ⟨hp, hne⟩
      cases xs with
      | nil => exact hne (isPrefixOf_nil_right sep hp)
      | cons c t => simp [containsSub, hp] at hc
    cases xs with
    | nil => simp only [pySplitF, if_neg hguard]
    | cons c t =>
      simp only [pySplitF, if_neg hguard]
      have hct : containsSub sep t = false := by
        simp only [containsSub, Bool.or_eq_false_iff] at hc
        exact hc.2
      rw [ih sep t (by simp only [List.length_cons] at h; omega) hct]

theorem pySplitF_out_no_sep : ∀ (fuel : Nat) (sep xs : List Char), xs.length < fuel →
    sep ≠ [] → ∀ ys ∈ pySplitF fuel sep xs, containsSub sep ys = false := by
  intro fuel
  induction fuel with
  | zero =>
    intro sep xs h
    omega
  | succ f ih =>
    intro sep xs h hsep ys hmem
    by_cases hp : sep.isPrefixOf xs ∧ sep ≠ []
    · simp only [pySplitF, if_pos hp] at hmem
      rcases List.mem_cons.mp hmem with h1 | h1
      · subst h1
        cases sep with
        | nil => exact absurd rfl hsep
        | cons a b => rfl
      · have hlen : sep.length ≤ xs.length := isPrefixOf_length_le _ _ hp.1
        have hpos : 0 < sep.length := List.length_pos.mpr hsep
        exact ih sep _ (by simp only [List.length_drop]; omega) hsep ys h1
    · have hnp : sep.isPrefixOf xs = false := by
        cases hb : sep.isPrefixOf xs with
        | false => rfl
        | true => exact absurd ⟨hb, hsep⟩ hp
      cases xs with
      | nil =>
        simp only [pySplitF, if_neg hp] at hmem
        simp at hmem
        subst hmem
        cases sep with
        | nil => exact absurd rfl hsep
        | cons a b => rfl
      | cons c t =>
        simp only [pySplitF, if_neg hp] at hmem
        cases hres : pySplitF f sep t with
        | nil => exact absurd hres (pySplitF_ne_nil f sep t)
        | cons y ys0 =>
          rw [hres] at hmem
          have hlt : t.length < f := by simp only [List.length_cons] at h; omega
          have hIH := ih sep t hlt hsep
          rcases List.mem_cons.mp hmem with h1 | h1
          · subst h1
            have hy : containsSub sep y = false := hIH y (by rw [hres]; simp)
            have hncy : sep.isPrefixOf (c :: y) = false := by
              cases hb : sep.isPrefixOf (c :: y) with
              | false => rfl
              | true =>
                obtain ⟨rest, hrest⟩ := pySplitF_head_app f sep t hlt
                rw [hres] at hrest
                simp only [List.headD_cons] at hrest
                have hext : sep.isPrefixOf ((c :: y) ++ rest) = true :=
                  isPrefixOf_append_ext _ _ _ hb
                have hct : (c :: y) ++ rest = c :: t := by
                  simp [hrest]
                rw [hct] at hext
                rw [hext] at hnp
                exact absurd hnp (by simp)
            simp [containsSub, hncy, hy]
          · exact hIH ys (by rw [hres]; simp [h1])

theorem stripL_no_sep (xs : List Char)
    (h : containsSub ("https://".data) xs = false) : stripL xs = xs := by
  have hsplit := pySplitF_no_sep (xs.length + 1) ("https://".data) xs
    (Nat.lt_succ_self _) h
  simp [stripL, pySplit, hsplit]

theorem stripL_out (xs : List Char) :
    stripL xs = xs ∨ containsSub ("https://".data) (stripL xs) = false := by
  by_cases h1 : (pySplit ("https://".data) xs).length = 1
  · left
    simp [stripL, h1]
  · right
    have hne : ("https://".data : List Char) ≠ [] := by decide
    have hnn : pySplit ("https://".data) xs ≠ [] :=
      pySplitF_ne_nil (xs.length + 1) ("https://".data) xs
    have hpos : 0 < (pySplit ("https://".data) xs).length := List.length_pos.mpr hnn
    have h2 : 1 < (pySplit ("https://".data) xs).length := by omega
    have hmem : (pySplit ("https://".data) xs).getD 1 [] ∈ pySplit ("https://".data) xs := by
      rw [List.getD_eq_getElem _ _ h2]
      exact List.getElem_mem h2
    have hout := pySplitF_out_no_sep (xs.length + 1) ("https://".data) xs
      (Nat.lt_succ_self _) hne _ hmem
    simpa [stripL, h1] using hout

theorem stripL_idem (xs : List Char) : stripL (stripL xs) = stripL xs := by
  rcases stripL_out xs with h | h
  · rw [h]
    exact h
  · exact stripL_no_sep _ h

theorem stripShopAddress_idem (s : String) :
    stripShopAddress (stripShopAddress s) = stripShopAddress s := by
  unfold stripShopAddress
  rw [show (String.mk (stripL s.data)).data = stripL s.data from rfl, stripL_idem]

theorem getStoreInfo_shopUpdate (db : ShopDb) (shop : String) (g : ShopRow → ShopRow)
    (hg : ∀ r, (g r).shop_address = r.shop_address) :
    getStoreInfo (shopUpdate db (stripShopAddress shop) g) shop =
      (getStoreInfo db shop).map g := by
  induction db with
  | nil => rfl
  | cons r rest ih =>
    by_cases hr : r.shop_address = stripShopAddress shop
    · simp only [getStoreInfo, shopUpdate, List.map_cons, if_pos hr]
      rw [List.find?_cons_of_pos _ (by simp [hg, hr]),
        List.find?_cons_of_pos _ (by simp [hr])]
      simp
    · simp only [getStoreInfo, shopUpdate, List.map_cons, if_neg hr]
      rw [List.find?_cons_of_neg _ (by simp [hr]),
        List.find?_cons_of_neg _ (by simp [hg, hr])]
      simpa [getStoreInfo, shopUpdate] using ih

theorem shopUpdate_filter_ne (db : ShopDb) (a : String) (g : ShopRow → ShopRow)
    (hg : ∀ r, (g r).shop_address = r.shop_address) :
    (shopUpdate db a g).filter (fun r => decide (r.shop_address ≠ a)) =
      db.filter (fun r => decide (r.shop_address ≠ a)) := by
  induction db with
  | nil => rfl
  | cons r rest ih =>
    by_cases hr : r.shop_address = a
    · simp [shopUpdate, List.filter_cons, hr, hg]
      simpa [shopUpdate] using ih
    · simp [shopUpdate, List.filter_cons, hr]
      simpa [shopUpdate] using ih

theorem invalid_ne_notRequested (shop : String) :
    invalidStateBody ≠ notRequestedBody shop := by
  intro h
  have h1 : invalidStateBody.data.head? = some 'I' := rfl
  have h2 : (notRequestedBody shop).data.head? = some '\n' := rfl
  rw [h, h2] at h1
  exact absurd h1 (by decide)

/-- Claim C4: shop status is a pure function of the stored record — no
record gives NOT_KNOWN; a record with `install_time` null gives
INSTALL_REQUESTED whatever `uninstall_time` holds (the null check on
`install_time` comes first); `install_time` set with `uninstall_time` null
gives INSTALLED; both set gives UNINSTALLED. -/
theorem C4_store_status_derivation :
    getStoreStatus none = StoreStatus.NOT_KNOWN
    ∧ (∀ r : ShopRow,
        getStoreStatus (some { r with install_time := none }) =
          StoreStatus.INSTALL_REQUESTED)
    ∧ (∀ (r : ShopRow) (t : Int),
        getStoreStatus (some { r with install_time := some t, uninstall_time := none }) =
          StoreStatus.INSTALLED)
    ∧ (∀ (r : ShopRow) (t u : Int),
        getStoreStatus (some { r with install_time := some t, uninstall_time := some u }) =
          StoreStatus.UNINSTALLED) := by
  refine ⟨rfl, fun r => by simp [getStoreStatus], fun r t => by simp [getStoreStatus],
    fun r t u => by simp [getStoreStatus]⟩

/-- Claim C3: `app_installed` succeeds (redirects, having written
`confirm_installation`) precisely when the derived status is
INSTALL_REQUESTED and the supplied `state` equals the stored nonce; on any
other status, or on a nonce mismatch, the shop table is returned untouched
(install_time in particular), the nonce mismatch answers with the
invalid-state 400 body, and that body differs from the
not-requested/not-found 400 body. -/
theorem C3_confirm_installation_iff (db : ShopDb) (shop : String)
    (state : Option String) (authToken : Option String) (racResponse : Option Int)
    (now : Int) :
    ((∃ url st2, (appInstalled db shop state authToken racResponse now).1 =
        .redirectTo url st2) ↔
      (getStoreStatus (getStoreInfo db shop) = .INSTALL_REQUESTED
        ∧ state = (getStoreInfo db shop).map (fun r => r.nonce)))
    ∧ ((¬ (getStoreStatus (getStoreInfo db shop) = .INSTALL_REQUESTED
          ∧ state = (getStoreInfo db shop).map (fun r => r.nonce))) →
        (appInstalled db shop state authToken racResponse now).2 = db)
    ∧ (getStoreStatus (getStoreInfo db shop) = .INSTALL_REQUESTED →
        state ≠ (getStoreInfo db shop).map (fun r => r.nonce) →
        (appInstalled db shop state authToken racResponse now).1 =
          .page invalidStateBody 400)
    ∧ invalidStateBody ≠ notRequestedBody shop := by
  have hbody := invalid_ne_notRequested shop
  cases hrow : getStoreInfo db shop with
  | none =>
    refine ⟨?_, ?_, ?_, hbody⟩ <;> simp [appInstalled, hrow, getStoreStatus]
  | some r =>
    by_cases hst : getStoreStatus (some r) = StoreStatus.INSTALL_REQUESTED
    · by_cases hnonce : state = some r.nonce
      · refine ⟨?_, ?_, ?_, hbody⟩ <;> simp [appInstalled, hrow, hst, hnonce]
      · refine ⟨?_, ?_, ?_, hbody⟩ <;> simp [appInstalled, hrow, hst, hnonce]
    · refine ⟨?_, ?_, ?_, hbody⟩ <;> simp [appInstalled, hrow, hst]

/-- A shop row in the INSTALL_REQUESTED state (install_time null). -/
def shopRowReq : ShopRow :=
  { shop_address := "teststore.myshopify.com", nonce := "n0", ask_time := 0,
    install_time := none, uninstall_time := none, access_token := none,
    needs_rescope := false, rac_id := none }

/-- Claim C3, witness: a nonce mismatch against an INSTALL_REQUESTED shop
answers with the invalid-state 400 body and leaves the table untouched. -/
theorem C3_confirm_installation_witness :
    (appInstalled [shopRowReq] "teststore.myshopify.com" (some "BAD") none none 9).1 =
      .page invalidStateBody 400
    ∧ (appInstalled [shopRowReq] "teststore.myshopify.com" (some "BAD") none none 9).2 =
      [shopRowReq] := by
  have h := C3_confirm_installation_iff [shopRowReq] "teststore.myshopify.com"
    (some "BAD") none none 9
  exact ⟨h.2.2.1 (by decide) (by decide), h.2.1 (by decide)⟩

/-- Claim C7: for every shop record, `uninstall` followed by
`request_reinstall` leaves the row with install_time, uninstall_time,
access_token and rac_id all null, the new ask_time recorded, the freshly
generated nonce (distinct from the stored one — the uuid4 freshness is a
hypothesis), and derived status INSTALL_REQUESTED. -/
theorem C7_uninstall_reinstall (db : ShopDb) (shop : String) (r : ShopRow)
    (t1 : Int) (newNonce : String) (t2 : Int)
    (hr : getStoreInfo db shop = some r)
    (hn : newNonce ≠ r.nonce) :
    ∃ r2, getStoreInfo (requestReinstall (uninstall db shop t1) shop newNonce t2)
        shop = some r2
      ∧ r2.install_time = none ∧ r2.uninstall_time = none
      ∧ r2.access_token = none ∧ r2.rac_id = none
      ∧ r2.ask_time = t2 ∧ r2.nonce = newNonce ∧ r2.nonce ≠ r.nonce
      ∧ getStoreStatus (some r2) = .INSTALL_REQUESTED := by
  unfold requestReinstall uninstall
  rw [getStoreInfo_shopUpdate
      (shopUpdate db (stripShopAddress shop)
        (fun r => { r with uninstall_time := some t1, access_token := none,
                           rac_id := none }))
      shop
      (fun r => { r with uninstall_time := none, install_time := none,
                         ask_time := t2, nonce := newNonce, access_token := none,
                         needs_rescope := false, rac_id := none })
      (fun x => rfl),
    getStoreInfo_shopUpdate db shop
      (fun r => { r with uninstall_time := some t1, access_token := none,
                         rac_id := none })
      (fun x => rfl),
    hr]
  exact ⟨_, rfl, rfl, rfl, rfl, rfl, rfl, rfl, hn, by simp [getStoreStatus]⟩

/-- Claim C7, witness: the theorem evaluated on a one-row store. -/
theorem C7_uninstall_reinstall_witness :
    ∃ r2, getStoreInfo
        (requestReinstall (uninstall [shopRowSample] "teststore.myshopify.com" 5)
          "teststore.myshopify.com" "n1" 6) "teststore.myshopify.com" = some r2
      ∧ r2.install_time = none ∧ r2.uninstall_time = none
      ∧ r2.access_token = none ∧ r2.rac_id = none
      ∧ r2.ask_time = 6 ∧ r2.nonce = "n1" ∧ r2.nonce ≠ shopRowSample.nonce
      ∧ getStoreStatus (some r2) = .INSTALL_REQUESTED :=
  C7_uninstall_reinstall [shopRowSample] "teststore.myshopify.com" shopRowSample
    5 "n1" 6 (by decide) (by decide)

/-- Claim C10, counterexample: on an address with two occurrences of
`"https://"`, the portion after the first occurrence is `"https://x"`, but
`strip_shop_address` returns `split[1]` — the piece strictly between the
first and second occurrences, here the empty string. -/
theorem C10_double_scheme_counterexample :
    stripShopAddress "https://https://x" = ""
    ∧ ("https://https://x" : String) = "https://" ++ "https://x"
    ∧ ("" : String) ≠ "https://x" := by decide

/-- Claim C10 (amended): `strip_shop_address` returns the input unchanged
when `"https://"` does not occur in it; otherwise it returns the piece of
the input strictly between the first occurrence and the next (in
particular the result never contains a further `"https://"`), rather than
everything after the first occurrence; it is idempotent; and every
`PGStoreInterface` store operation addresses exactly the row keyed by this
normalised address. -/
theorem C10_strip_amended :
    (∀ s : String, containsSub ("https://".data) s.data = false →
      stripShopAddress s = s)
    ∧ (∀ s : String, stripShopAddress s = s ∨
        containsSub ("https://".data) (stripShopAddress s).data = false)
    ∧ (∀ s : String, stripShopAddress (stripShopAddress s) = stripShopAddress s)
    ∧ (∀ (db : ShopDb) (shop : String) (r : ShopRow),
        getStoreInfo db shop = some r → r.shop_address = stripShopAddress shop)
    ∧ (∀ (db : ShopDb) (shop nonce : String) (t : Int),
        (requestInstall db shop nonce t).map (fun r => r.shop_address) =
          db.map (fun r => r.shop_address) ++ [stripShopAddress shop])
    ∧ (∀ (db : ShopDb) (shop : String) (t : Int),
        (uninstall db shop t).filter
            (fun r => decide (r.shop_address ≠ stripShopAddress shop)) =
          db.filter (fun r => decide (r.shop_address ≠ stripShopAddress shop)))
    ∧ (∀ (db : ShopDb) (shop nonce : String) (t : Int),
        (requestReinstall db shop nonce t).filter
            (fun r => decide (r.shop_address ≠ stripShopAddress shop)) =
          db.filter (fun r => decide (r.shop_address ≠ stripShopAddress shop)))
    ∧ (∀ (db : ShopDb) (shop tok : String) (t : Int),
        (confirmInstallation db shop tok t).filter
            (fun r => decide (r.shop_address ≠ stripShopAddress shop)) =
          db.filter (fun r => decide (r.shop_address ≠ stripShopAddress shop)))
    ∧ (∀ (db : ShopDb) (shop : String) (rid : Int),
        (updateRacId db shop rid).filter
            (fun r => decide (r.shop_address ≠ stripShopAddress shop)) =
          db.filter (fun r => decide (r.shop_address ≠ stripShopAddress shop))) := by
  refine ⟨?_, ?_, stripShopAddress_idem, ?_, ?_, ?_, ?_, ?_, ?_⟩
  · intro s h
    unfold stripShopAddress
    rw [stripL_no_sep s.data h]
  · intro s
    rcases stripL_out s.data with h | h
    · left
      unfold stripShopAddress
      rw [h]
    · right
      exact h
  · intro db shop r h
    have := List.find?_some h
    simpa using this
  · intro db shop nonce t
    simp [requestInstall]
  · intro db shop t
    exact shopUpdate_filter_ne db _ _ (fun x => rfl)
  · intro db shop nonce t
    exact shopUpdate_filter_ne db _ _ (fun x => rfl)
  · intro db shop tok t
    exact shopUpdate_filter_ne db _ _ (fun x => rfl)
  · intro db shop rid
    exact shopUpdate_filter_ne db _ _ (fun x => rfl)

/-- Claim C10, witness: the amended theorem at concrete inputs. -/
theorem C10_strip_amended_witness :
    stripShopAddress "shop.myshopify.com" = "shop.myshopify.com"
    ∧ shopRowSample.shop_address = stripShopAddress "teststore.myshopify.com" := by
  refine ⟨C10_strip_amended.1 "shop.myshopify.com" (by decide),
    C10_strip_amended.2.2.2.1 [shopRowSample] "teststore.myshopify.com"
      shopRowSample (by decide)⟩

/-- The observable result of the `/create_discount` route body. -/
inductive DiscountRouteResult where
  | message (body : String)
  | issued
  deriving DecidableEq, Repr

/-- Embeds the logging line `logger.info(request.json())` at the top of the
`/create_discount` route (server.py:277): Flask `request.json` is a
property, so its value is the decoded dict (or `None` for a request with no
JSON body), and CALLING that value raises `TypeError` on every request. -/
def requestJsonCalled : Except PyErr Unit := .error .typeError

/-- Embeds `create_discount` (the `/create_discount` route): log the hit,
the headers, and `request.json()` — the latter raises `TypeError`
unconditionally — then read `discount_name` from the request JSON (`None`
when the key is absent), call `find_discount`, answer with the not-found
message when it returned `None`, and otherwise run the Discount Issuance
Workflow (`create_prds_on_shopify`, summarised as `issued`) and answer OK.
(The contraction in the source message is spelled out here, avoiding the
apostrophe.) -/
def createDiscountRoute (prds : List PRDRow) (discountName : Option String) :
    Except PyErr DiscountRouteResult := do
  let _ ← requestJsonCalled
  match findDiscountCore prds discountName with
  | .error e => .error e
  | .ok none =>
    .ok (.message ("Could not find discount_code " ++ pyStr discountName ++
      " in database"))
  | .ok (some _) => .ok .issued

/-- Claim C8: a discount-code string with no DiscountRecord never receives
the descriptive not-found message.  The route crashes unhandled on every
request: `logger.info(request.json())` raises `TypeError` before
`find_discount` is even reached; and `find_discount` itself, run on a code
with no record, executes `discount.iloc[0]` on the empty query result and
raises `IndexError` rather than returning the `None` that its `Optional`
annotation and the check in `create_discount` expect. -/
theorem C8_route_crashes (prds : List PRDRow) (discountName : Option String)
    (code : String) (h : ∀ p ∈ prds, p.discount_code ≠ code) :
    createDiscountRoute prds discountName = .error .typeError
    ∧ findDiscountCore prds (some code) = .error .indexError := by
  constructor
  · rfl
  · have hf : prds.find? (fun p => decide (p.discount_code = code)) = none := by
      rw [List.find?_eq_none]
      intro p hp
      simp [h p hp]
    simp only [findDiscountCore]
    rw [hf]

/-- Claim C8, witness: any request crashes with `TypeError`, and the
unknown code `"MISSING"` against an empty DiscountRecord table would raise
`IndexError` inside `find_discount`. -/
theorem C8_route_crashes_witness :
    createDiscountRoute [] (some "MISSING") = .error .typeError
    ∧ findDiscountCore [] (some "MISSING") = .error .indexError :=
  C8_route_crashes [] (some "MISSING") "MISSING" (by simp)

/-- The possible outcomes of the underlying `requests` call in
`authenticated_shopify_call`: a response whose `raise_for_status` passes
(with optional body content), an HTTP error status (`raise_for_status`
raises `HTTPError`), or a timeout (`requests.exceptions.Timeout`, which is
not a subclass of `HTTPError`). -/
inductive HttpOutcome where
  | response (content : Option String)
  | httpError
  | timeout
  deriving DecidableEq, Repr

/-- Embeds `authenticated_shopify_call`: the `try` body returns the decoded JSON
when the response has content and `None` otherwise; the `except HTTPError`
arm catches exactly `HTTPError`, logs it, and returns `None`; a request
timeout is not an `HTTPError` and propagates out of the function. -/
def authenticatedShopifyCall : HttpOutcome → Except PyErr (Option String)
  | .response content => .ok content
  | .httpError => .ok none
  | .timeout => .error .timeoutError

/-- Claim C9, counterexample: a timeout of the underlying request is not
caught and surfaced as `None` — it escapes `authenticated_shopify_call` as
an exception, because the call site catches only `HTTPError`. -/
theorem C9_timeout_counterexample :
    authenticatedShopifyCall .timeout = .error .timeoutError
    ∧ authenticatedShopifyCall .timeout ≠ .ok none := by
  refine ⟨rfl, fun h => ?_⟩
  exact Except.noConfusion h

/-- Claim C9 (amended): HTTP error responses from a Shopify API call are
caught at the call site, logged and surfaced to the caller as `None`, and
successful responses return their decoded body (`None` when empty) — but a
timeout (or any other non-`HTTPError` request failure) propagates as an
exception rather than being returned as `None`. -/
theorem C9_http_error_amended :
    authenticatedShopifyCall .httpError = .ok none
    ∧ (∀ content, authenticatedShopifyCall (.response content) = .ok content)
    ∧ authenticatedShopifyCall .timeout = .error .timeoutError :=
  ⟨rfl, fun _ => rfl, rfl⟩
